import Mathlib

/-!
Shallow embedding of the teehr metrics-query compiler core
(src/teehr/models/queries.py and src/teehr/queries/duckdb_database.py),
with the query helpers of teehr/queries/utils.py — absent from the source
tree — modelled from the specification where noted.
-/

namespace Teehr

/-! ## Field and operator vocabulary (src/teehr/models/queries.py) -/

/-- `FilterOperatorEnum` from models/queries.py: the closed operator set. -/
inductive FilterOperatorEnum where
  | eq
  | gt
  | lt
  | gte
  | lte
  | islike
  | isin
deriving DecidableEq, Repr

/-- The string value of each operator, as in the Python `StrEnum`. -/
def FilterOperatorEnum.symbol : FilterOperatorEnum → String
  | .eq => "="
  | .gt => ">"
  | .lt => "<"
  | .gte => ">="
  | .lte => "<="
  | .islike => "like"
  | .isin => "in"

/-- `MetricEnum` from models/queries.py: the registered metric identifiers. -/
inductive MetricEnum where
  | primary_count
  | secondary_count
  | primary_minimum
  | secondary_minimum
  | primary_maximum
  | secondary_maximum
  | primary_average
  | secondary_average
  | primary_sum
  | secondary_sum
  | primary_variance
  | secondary_variance
  | max_value_delta
  | nash_sutcliffe_efficiency
  | nash_sutcliffe_efficiency_normalized
  | kling_gupta_efficiency
  | kling_gupta_efficiency_mod1
  | kling_gupta_efficiency_mod2
  | mean_error
  | mean_absolute_error
  | mean_squared_error
  | root_mean_squared_error
  | primary_max_value_time
  | secondary_max_value_time
  | max_value_timedelta
  | relative_bias
  | multiplicative_bias
  | mean_absolute_relative_error
  | pearson_correlation
  | r_squared
  | annual_peak_relative_bias
  | spearman_correlation
deriving DecidableEq, Repr

/-- The string value of each metric id, as in the Python `StrEnum`. -/
def MetricEnum.id : MetricEnum → String
  | .primary_count => "primary_count"
  | .secondary_count => "secondary_count"
  | .primary_minimum => "primary_minimum"
  | .secondary_minimum => "secondary_minimum"
  | .primary_maximum => "primary_maximum"
  | .secondary_maximum => "secondary_maximum"
  | .primary_average => "primary_average"
  | .secondary_average => "secondary_average"
  | .primary_sum => "primary_sum"
  | .secondary_sum => "secondary_sum"
  | .primary_variance => "primary_variance"
  | .secondary_variance => "secondary_variance"
  | .max_value_delta => "max_value_delta"
  | .nash_sutcliffe_efficiency => "nash_sutcliffe_efficiency"
  | .nash_sutcliffe_efficiency_normalized => "nash_sutcliffe_efficiency_normalized"
  | .kling_gupta_efficiency => "kling_gupta_efficiency"
  | .kling_gupta_efficiency_mod1 => "kling_gupta_efficiency_mod1"
  | .kling_gupta_efficiency_mod2 => "kling_gupta_efficiency_mod2"
  | .mean_error => "mean_error"
  | .mean_absolute_error => "mean_absolute_error"
  | .mean_squared_error => "mean_squared_error"
  | .root_mean_squared_error => "root_mean_squared_error"
  | .primary_max_value_time => "primary_max_value_time"
  | .secondary_max_value_time => "secondary_max_value_time"
  | .max_value_timedelta => "max_value_timedelta"
  | .relative_bias => "relative_bias"
  | .multiplicative_bias => "multiplicative_bias"
  | .mean_absolute_relative_error => "mean_absolute_relative_error"
  | .pearson_correlation => "pearson_correlation"
  | .r_squared => "r_squared"
  | .annual_peak_relative_bias => "annual_peak_relative_bias"
  | .spearman_correlation => "spearman_correlation"

/-- All registered metric ids, in the order of declaration in `MetricEnum`. -/
def MetricEnum.registry : List MetricEnum :=
  [ .primary_count, .secondary_count, .primary_minimum, .secondary_minimum,
    .primary_maximum, .secondary_maximum, .primary_average, .secondary_average,
    .primary_sum, .secondary_sum, .primary_variance, .secondary_variance,
    .max_value_delta, .nash_sutcliffe_efficiency,
    .nash_sutcliffe_efficiency_normalized, .kling_gupta_efficiency,
    .kling_gupta_efficiency_mod1, .kling_gupta_efficiency_mod2,
    .mean_error, .mean_absolute_error, .mean_squared_error,
    .root_mean_squared_error, .primary_max_value_time,
    .secondary_max_value_time, .max_value_timedelta, .relative_bias,
    .multiplicative_bias, .mean_absolute_relative_error,
    .pearson_correlation, .r_squared, .annual_peak_relative_bias,
    .spearman_correlation ]

/-- Membership lookup by string value, i.e. what pydantic does when coercing a
string into `MetricEnum`.  Returns `none` for an unregistered id. -/
def MetricEnum.fromString (s : String) : Option MetricEnum :=
  MetricEnum.registry.find? (fun m => m.id = s)

/-- `JoinedFilterFieldEnum` from models/queries.py: the joined-view field
vocabulary. -/
inductive JoinedFilterFieldEnum where
  | value_time
  | reference_time
  | secondary_location_id
  | secondary_value
  | configuration
  | measurement_unit
  | variable_name
  | primary_value
  | primary_location_id
  | lead_time
  | geometry
deriving DecidableEq, Repr

/-- The string value of each joined-view field, as in the Python `StrEnum`. -/
def JoinedFilterFieldEnum.fieldName : JoinedFilterFieldEnum → String
  | .value_time => "value_time"
  | .reference_time => "reference_time"
  | .secondary_location_id => "secondary_location_id"
  | .secondary_value => "secondary_value"
  | .configuration => "configuration"
  | .measurement_unit => "measurement_unit"
  | .variable_name => "variable_name"
  | .primary_value => "primary_value"
  | .primary_location_id => "primary_location_id"
  | .lead_time => "lead_time"
  | .geometry => "geometry"

/-- All members of `JoinedFilterFieldEnum`, in declaration order. -/
def JoinedFilterFieldEnum.members : List JoinedFilterFieldEnum :=
  [ .value_time, .reference_time, .secondary_location_id, .secondary_value,
    .configuration, .measurement_unit, .variable_name, .primary_value,
    .primary_location_id, .lead_time, .geometry ]

/-- Lookup by string value: pydantic coercion of a string into
`JoinedFilterFieldEnum`; `none` for a name outside the vocabulary. -/
def JoinedFilterFieldEnum.fromString (s : String) : Option JoinedFilterFieldEnum :=
  JoinedFilterFieldEnum.members.find? (fun f => f.fieldName = s)

/-- `TimeseriesFilterFieldEnum` from models/queries.py: the single-series
field vocabulary. -/
inductive TimeseriesFilterFieldEnum where
  | value_time
  | reference_time
  | location_id
  | value
  | configuration
  | measurement_unit
  | variable_name
  | lead_time
  | geometry
deriving DecidableEq, Repr

/-- The string value of each single-series field. -/
def TimeseriesFilterFieldEnum.fieldName : TimeseriesFilterFieldEnum → String
  | .value_time => "value_time"
  | .reference_time => "reference_time"
  | .location_id => "location_id"
  | .value => "value"
  | .configuration => "configuration"
  | .measurement_unit => "measurement_unit"
  | .variable_name => "variable_name"
  | .lead_time => "lead_time"
  | .geometry => "geometry"

/-! ## Filter model (src/teehr/models/queries.py) -/

/-- A scalar filter value: one arm of the Python annotation
`Union[str, int, float, datetime, List[...]]`.  Floats are embedded as
rationals and datetimes as integer epochs. -/
inductive FilterScalar where
  | str (s : String)
  | int (n : Int)
  | float (q : Rat)
  | datetime (t : Int)
deriving DecidableEq, Repr

/-- A filter value: a scalar or a list of scalars
(`Union[str, int, float, datetime, List[Union[str, int, float, datetime]]]`). -/
inductive FilterValue where
  | scalar (v : FilterScalar)
  | list (l : List FilterScalar)
deriving DecidableEq, Repr

/-- `is_iterable_not_str` from models/queries.py: a Python `str` is iterable
but excluded; `int`, `float` and `datetime` are not iterable; a list is. -/
def FilterValue.is_iterable_not_str : FilterValue → Bool
  | .scalar _ => false
  | .list _ => true

/-- `JoinedFilter.in_operator_must_have_iterable` from models/queries.py:
the pydantic field validator on `value`, run with the already-validated
`operator` in `info.data`. -/
def JoinedFilter.in_operator_must_have_iterable
    (operator : FilterOperatorEnum) (v : FilterValue) :
    Except String FilterValue :=
  if v.is_iterable_not_str ∧ operator ≠ .isin then
    .error "iterable value must be used with 'in' operator"
  else if operator = .isin ∧ ¬ v.is_iterable_not_str then
    .error "'in' operator can only be used with iterable value"
  else
    .ok v

/-- `JoinedFilter` from models/queries.py, after validation. -/
structure JoinedFilter where
  column : JoinedFilterFieldEnum
  operator : FilterOperatorEnum
  value : FilterValue
deriving DecidableEq, Repr

/-- Constructing a `JoinedFilter`: pydantic validates the fields and runs the
`value` field validator; an error there is a `ValidationError` at
construction time. -/
def JoinedFilter.mk? (column : JoinedFilterFieldEnum)
    (operator : FilterOperatorEnum) (value : FilterValue) :
    Except String JoinedFilter :=
  (JoinedFilter.in_operator_must_have_iterable operator value).map
    (fun v => { column := column, operator := operator, value := v })

/-- `TimeseriesFilter.in_operator_must_have_iterable` from models/queries.py:
textually the same validator as the joined one. -/
def TimeseriesFilter.in_operator_must_have_iterable
    (operator : FilterOperatorEnum) (v : FilterValue) :
    Except String FilterValue :=
  if v.is_iterable_not_str ∧ operator ≠ .isin then
    .error "iterable value must be used with 'in' operator"
  else if operator = .isin ∧ ¬ v.is_iterable_not_str then
    .error "'in' operator can only be used with iterable value"
  else
    .ok v

/-- `TimeseriesFilter` from models/queries.py, after validation. -/
structure TimeseriesFilter where
  column : TimeseriesFilterFieldEnum
  operator : FilterOperatorEnum
  value : FilterValue
deriving DecidableEq, Repr

/-- Constructing a `TimeseriesFilter` (validation at construction time). -/
def TimeseriesFilter.mk? (column : TimeseriesFilterFieldEnum)
    (operator : FilterOperatorEnum) (value : FilterValue) :
    Except String TimeseriesFilter :=
  (TimeseriesFilter.in_operator_must_have_iterable operator value).map
    (fun v => { column := column, operator := operator, value := v })

/-! ## Request models (src/teehr/models/queries.py, `MetricQuery`) -/

/-- Python truthiness of the optional `geometry_filepath`: `None` and the
empty string are falsy. -/
def pathFalsy : Option String → Bool
  | none => true
  | some s => s.isEmpty

/-- `MetricQuery.include_geometry_must_group_by_primary_location_id` from
models/queries.py: the pydantic field validator on `include_geometry`,
with the already-validated `group_by` and `geometry_filepath` in
`info.data`.  The three checks run in source order. -/
def include_geometry_must_group_by_primary_location_id
    (v : Bool) (group_by : List JoinedFilterFieldEnum)
    (geometry_filepath : Option String) : Except String Bool :=
  if v = true ∧ JoinedFilterFieldEnum.primary_location_id ∉ group_by then
    .error "`group_by` must contain `primary_location_id` to include geometry in returned data"
  else if v = true ∧ pathFalsy geometry_filepath then
    .error "`geometry_filepath` must be provided to include geometry in returned data"
  else if JoinedFilterFieldEnum.geometry ∈ group_by ∧ v = false then
    .error "group_by contains `geometry` field but `include_geometry` is False, must be True"
  else
    .ok v

/-- A raw (pre-validation) `include_metrics` payload: the caller passes
either a string or a list of strings. -/
inductive IncludeMetricsRaw where
  | str (s : String)
  | list (l : List String)
deriving DecidableEq, Repr

/-- The validated `include_metrics` field,
`Union[List[MetricEnum], MetricEnum, str]` from models/queries.py:
a list of registered metrics, a single registered metric, or — via the
`str` arm of the union — any plain string (this is how `"all"` is
admitted). -/
inductive IncludeMetricsField where
  | metricList (l : List MetricEnum)
  | metric (m : MetricEnum)
  | plainStr (s : String)
deriving DecidableEq, Repr

/-- Parse a raw list of strings elementwise into `MetricEnum`
(the `List[MetricEnum]` arm of the union): any unregistered id fails. -/
def parseMetricList : List String → Except String (List MetricEnum)
  | [] => .ok []
  | s :: rest =>
    match MetricEnum.fromString s with
    | none => .error ("unknown metric: " ++ s)
    | some m => (parseMetricList rest).map (fun l => m :: l)

/-- Pydantic validation of `include_metrics` against
`Union[List[MetricEnum], MetricEnum, str]`: a list must parse elementwise
as registered metrics (no other arm accepts a list); a string parses as a
registered metric when possible and is otherwise accepted verbatim by the
`str` arm. -/
def parseIncludeMetrics : IncludeMetricsRaw → Except String IncludeMetricsField
  | .list l => (parseMetricList l).map IncludeMetricsField.metricList
  | .str s =>
    match MetricEnum.fromString s with
    | some m => .ok (.metric m)
    | none => .ok (.plainStr s)

/-- Modelled from the spec: the expansion of `include_metrics` performed by
the select helpers of teehr/queries/utils.py (absent from the source tree);
the spec states that `include_metrics = "all"` expands to every registered
metric id. -/
def includedMetrics : IncludeMetricsField → List MetricEnum
  | .metricList l => l
  | .metric m => [m]
  | .plainStr s => if s = "all" then MetricEnum.registry else []

/-- Parse a raw list of field names elementwise into the joined-field
vocabulary (pydantic coercion of `List[JoinedFilterFieldEnum]`): any name
outside the vocabulary fails validation. -/
def parseJoinedFieldList : List String → Except String (List JoinedFilterFieldEnum)
  | [] => .ok []
  | s :: rest =>
    match JoinedFilterFieldEnum.fromString s with
    | none => .error ("unknown field: " ++ s)
    | some f => (parseJoinedFieldList rest).map (fun l => f :: l)

/-- A raw filter triple, before validation. -/
structure RawFilter where
  column : String
  operator : String
  value : FilterValue
deriving DecidableEq, Repr

/-- All operators, in declaration order. -/
def FilterOperatorEnum.members : List FilterOperatorEnum :=
  [.eq, .gt, .lt, .gte, .lte, .islike, .isin]

/-- Lookup of an operator by its string value. -/
def FilterOperatorEnum.fromString (s : String) : Option FilterOperatorEnum :=
  FilterOperatorEnum.members.find? (fun op => op.symbol = s)

/-- Validate one raw filter into a `JoinedFilter`: the column must be in the
joined vocabulary, the operator in the operator set, and the value must
satisfy the `in`-iterable invariant. -/
def parseJoinedFilter (rf : RawFilter) : Except String JoinedFilter :=
  match JoinedFilterFieldEnum.fromString rf.column with
  | none => .error ("unknown field: " ++ rf.column)
  | some col =>
    match FilterOperatorEnum.fromString rf.operator with
    | none => .error ("unknown operator: " ++ rf.operator)
    | some op => JoinedFilter.mk? col op rf.value

/-- Validate a raw filter list elementwise. -/
def parseJoinedFilters : List RawFilter → Except String (List JoinedFilter)
  | [] => .ok []
  | rf :: rest =>
    match parseJoinedFilter rf with
    | .error e => .error e
    | .ok f => (parseJoinedFilters rest).map (fun l => f :: l)

/-- The raw payload from which a `MetricQuery` is validated. -/
structure RawMetricQuery where
  primary_filepath : String
  secondary_filepath : String
  crosswalk_filepath : String
  group_by : List String
  order_by : List String
  include_metrics : IncludeMetricsRaw
  filters : List RawFilter
  return_query : Bool
  geometry_filepath : Option String
  include_geometry : Bool
  remove_duplicates : Bool
deriving DecidableEq, Repr

/-- `MetricQuery` from models/queries.py, after validation. -/
structure MetricQuery where
  primary_filepath : String
  secondary_filepath : String
  crosswalk_filepath : String
  group_by : List JoinedFilterFieldEnum
  order_by : List JoinedFilterFieldEnum
  include_metrics : IncludeMetricsField
  filters : List JoinedFilter
  return_query : Bool
  geometry_filepath : Option String
  include_geometry : Bool
  remove_duplicates : Bool
deriving DecidableEq, Repr

/-- Pydantic construction of a `MetricQuery`: fields validate in declaration
order (`group_by`, `order_by`, `include_metrics`, `filters`,
`geometry_filepath`, `include_geometry`); the first failure raises a
`ValidationError` and no model instance exists. -/
def MetricQuery.mk? (raw : RawMetricQuery) : Except String MetricQuery := do
  let gb ← parseJoinedFieldList raw.group_by
  let ob ← parseJoinedFieldList raw.order_by
  let im ← parseIncludeMetrics raw.include_metrics
  let fs ← parseJoinedFilters raw.filters
  let ig ← include_geometry_must_group_by_primary_location_id
    raw.include_geometry gb raw.geometry_filepath
  .ok { primary_filepath := raw.primary_filepath
        secondary_filepath := raw.secondary_filepath
        crosswalk_filepath := raw.crosswalk_filepath
        group_by := gb
        order_by := ob
        include_metrics := im
        filters := fs
        return_query := raw.return_query
        geometry_filepath := raw.geometry_filepath
        include_geometry := ig
        remove_duplicates := raw.remove_duplicates }

/-! ## Store rows (§6 of the spec; the schemas used by duckdb_database.py) -/

/-- A row of the input (primary or secondary) timeseries store.
Timestamps are integer epochs; `value: float32` is embedded as an exact
integer — the stages verified here only copy, compare, group and subtract
values, never divide them. -/
structure TimeseriesRow where
  reference_time : Int
  value_time : Int
  location_id : String
  value : Int
  configuration : String
  measurement_unit : String
  variable_name : String
deriving DecidableEq, Repr

/-- A row of the crosswalk store mapping secondary to primary locations. -/
structure XwalkRow where
  primary_location_id : String
  secondary_location_id : String
deriving DecidableEq, Repr

/-- A row of the `initial_joined` CTE of
`create_join_and_save_timeseries_query` (duckdb_database.py), in the order
of its select list. -/
structure IJRow where
  reference_time : Int
  value_time : Int
  secondary_location_id : String
  secondary_value : Int
  configuration : String
  measurement_unit : String
  primary_reference_time : Int
  variable_name : String
  primary_value : Int
  primary_location_id : String
  lead_time : Int
  absolute_difference : Int
deriving DecidableEq, Repr

/-- A row of the persisted `joined_timeseries` store (the insert target's
schema, §6 of the spec). -/
structure JTRow where
  reference_time : Int
  value_time : Int
  secondary_location_id : String
  secondary_value : Int
  configuration : String
  measurement_unit : String
  variable_name : String
  primary_value : Int
  primary_location_id : String
  lead_time : Int
  absolute_difference : Int
deriving DecidableEq, Repr

/-- A cell value of the joined store: a timestamp/interval, a string, or a
numeric value. -/
inductive FieldVal where
  | ts (t : Int)
  | s (v : String)
  | q (x : Rat)
deriving DecidableEq, Repr

/-- Constructor rank, used to make the cell ordering total across the three
payload types (the engine never actually compares across types). -/
def FieldVal.rank : FieldVal → Nat
  | .ts _ => 0
  | .s _ => 1
  | .q _ => 2

/-- Total `≤` on cell values: payloads compare within a type, ranks across. -/
def FieldVal.leB : FieldVal → FieldVal → Bool
  | .ts a, .ts b => a ≤ b
  | .s a, .s b => a ≤ b
  | .q a, .q b => a ≤ b
  | x, y => x.rank < y.rank

/-- Strict `<` on cell values. -/
def FieldVal.ltB (x y : FieldVal) : Bool :=
  FieldVal.leB x y && x ≠ y

/-- The names of the columns of the persisted `joined_timeseries` store.
Modelled from the spec: the `JoinedTimeseriesFieldName` model of
teehr/models/queries_database.py is absent from the source tree; it
carries a `field_name` validated against the joined store's columns
(§6 joined store schema). -/
inductive JoinedTimeseriesFieldName where
  | reference_time
  | value_time
  | secondary_location_id
  | secondary_value
  | configuration
  | measurement_unit
  | variable_name
  | primary_value
  | primary_location_id
  | lead_time
  | absolute_difference
deriving DecidableEq, Repr

/-- The string name of each joined-store column. -/
def JoinedTimeseriesFieldName.field_name : JoinedTimeseriesFieldName → String
  | .reference_time => "reference_time"
  | .value_time => "value_time"
  | .secondary_location_id => "secondary_location_id"
  | .secondary_value => "secondary_value"
  | .configuration => "configuration"
  | .measurement_unit => "measurement_unit"
  | .variable_name => "variable_name"
  | .primary_value => "primary_value"
  | .primary_location_id => "primary_location_id"
  | .lead_time => "lead_time"
  | .absolute_difference => "absolute_difference"

/-- The cell of a joined-store row in a given column. -/
def JTRow.get (r : JTRow) : JoinedTimeseriesFieldName → FieldVal
  | .reference_time => .ts r.reference_time
  | .value_time => .ts r.value_time
  | .secondary_location_id => .s r.secondary_location_id
  | .secondary_value => .q (r.secondary_value : Rat)
  | .configuration => .s r.configuration
  | .measurement_unit => .s r.measurement_unit
  | .variable_name => .s r.variable_name
  | .primary_value => .q (r.primary_value : Rat)
  | .primary_location_id => .s r.primary_location_id
  | .lead_time => .ts r.lead_time
  | .absolute_difference => .q (r.absolute_difference : Rat)

/-- The cell of a joined-store row named by a joined-view filter field;
`geometry` is not a column of the store. -/
def JTRow.getFilterField (r : JTRow) : JoinedFilterFieldEnum → Option FieldVal
  | .value_time => some (.ts r.value_time)
  | .reference_time => some (.ts r.reference_time)
  | .secondary_location_id => some (.s r.secondary_location_id)
  | .secondary_value => some (.q (r.secondary_value : Rat))
  | .configuration => some (.s r.configuration)
  | .measurement_unit => some (.s r.measurement_unit)
  | .variable_name => some (.s r.variable_name)
  | .primary_value => some (.q (r.primary_value : Rat))
  | .primary_location_id => some (.s r.primary_location_id)
  | .lead_time => some (.ts r.lead_time)
  | .geometry => none

/-! ## Filter rendering and semantics

teehr/queries/utils.py is absent from the source tree.  `filters_to_sql`
and the evaluation of a rendered `WHERE` clause are modelled from the
spec (§4.3 step 3: all filters conjoined with `AND`, an empty list
compiles to no restriction) and from the strings pinned by
tests/test_metric_filter_formatting.py. -/

/-- A scalar filter value rendered into SQL.  String-typed values are
single-quoted; the epoch-to-text datetime formatting
(`SQL_DATETIME_STR_FORMAT`) is abstracted to the decimal epoch. -/
def scalarToSql : FilterScalar → String
  | .str s => "'" ++ s ++ "'"
  | .int n => toString n
  | .float x => toString x
  | .datetime t => "'" ++ toString t ++ "'"

/-- A filter value rendered into SQL: a scalar, or a parenthesised
comma-separated list for the `in` operator. -/
def valueToSql : FilterValue → String
  | .scalar v => scalarToSql v
  | .list l => "(" ++ String.intercalate "," (l.map scalarToSql) ++ ")"

/-- One filter rendered as `column operator value`. -/
def filterToSql (f : JoinedFilter) : String :=
  f.column.fieldName ++ " " ++ f.operator.symbol ++ " " ++ valueToSql f.value

/-- Modelled from the spec: `filters_to_sql` of teehr/queries/utils.py.
All filters are conjoined with `AND` in list order; an empty filter list
compiles to no restriction (the comment string pinned by
tests/test_metric_filter_formatting.py). -/
def filters_to_sql (filters : List JoinedFilter) : String :=
  if filters.isEmpty then "--no where clause"
  else "WHERE " ++ String.intercalate " AND " (filters.map filterToSql)

/-- SQL `LIKE` pattern matching over characters: `%` matches any run,
`_` any single character. -/
def likeMatch : List Char → List Char → Bool
  | [], s => s.isEmpty
  | c :: ps, s =>
    if c = '%' then
      likeMatch ps s ||
        (match s with
         | [] => false
         | _ :: s' => likeMatch ('%' :: ps) s')
    else
      match s with
      | [] => false
      | x :: s' => (c = '_' || c = x) && likeMatch ps s'
termination_by pat s => (pat.length, s.length)

/-- One comparison of a stored cell against a scalar filter value. -/
def FilterScalar.toFieldVal : FilterScalar → FieldVal
  | .str s => .s s
  | .int n => .q (n : Rat)
  | .float x => .q x
  | .datetime t => .ts t

/-- The denotation of one rendered comparison operator on cell values. -/
def applyCmp (op : FilterOperatorEnum) (a b : FieldVal) : Bool :=
  match op with
  | .eq => a = b
  | .gt => FieldVal.ltB b a
  | .lt => FieldVal.ltB a b
  | .gte => FieldVal.leB b a
  | .lte => FieldVal.leB a b
  | .islike =>
    match a, b with
    | .s v, .s pat => likeMatch pat.toList v.toList
    | _, _ => false
  | .isin => false

/-- The denotation of one filter's rendered condition on a joined-store row. -/
def evalJoinedFilter (f : JoinedFilter) (r : JTRow) : Bool :=
  match r.getFilterField f.column with
  | none => false
  | some a =>
    match f.value with
    | .scalar v => applyCmp f.operator a v.toFieldVal
    | .list l => f.operator = .isin && (l.map FilterScalar.toFieldVal).contains a

/-- The denotation of the whole rendered `WHERE` clause: the conjunction of
every filter's condition. -/
def evalJoinedFilters (filters : List JoinedFilter) (r : JTRow) : Bool :=
  filters.all (fun f => evalJoinedFilter f r)

/-- The rows of the store selected under a filter list. -/
def applyFilters (filters : List JoinedFilter) (rows : List JTRow) : List JTRow :=
  rows.filter (evalJoinedFilters filters)

/-! ## Join-and-save compilation (duckdb_database.py,
`create_join_and_save_timeseries_query`) -/

/-- `JoinedTimeseriesQuery` from models/queries.py, after validation. -/
structure JoinedTimeseriesQuery where
  primary_filepath : String
  secondary_filepath : String
  crosswalk_filepath : String
  order_by : List JoinedFilterFieldEnum
  filters : List JoinedFilter
  return_query : Bool
  geometry_filepath : Option String
  include_geometry : Bool
  remove_duplicates : Bool
deriving DecidableEq, Repr

/-- `create_join_and_save_timeseries_query` from duckdb_database.py: the
insert-producing compilation, transcribed from the source f-string. -/
def create_join_and_save_timeseries_query (jtq : JoinedTimeseriesQuery) : String :=
  "
    WITH initial_joined as (
        SELECT
            sf.reference_time,
            sf.value_time,
            sf.location_id as secondary_location_id,
            sf.value as secondary_value,
            sf.configuration,
            sf.measurement_unit,
            pf.reference_time as primary_reference_time,
            sf.variable_name,
            pf.value as primary_value,
            pf.location_id as primary_location_id,
            sf.value_time - sf.reference_time as lead_time,
            abs(primary_value - secondary_value) as absolute_difference
        FROM read_parquet('" ++ jtq.secondary_filepath ++ "') sf
        JOIN read_parquet('" ++ jtq.crosswalk_filepath ++ "') cf
            on cf.secondary_location_id = sf.location_id
        JOIN read_parquet(\"" ++ jtq.primary_filepath ++ "\") pf
            on cf.primary_location_id = pf.location_id
            and sf.value_time = pf.value_time
            and sf.measurement_unit = pf.measurement_unit
            and sf.variable_name = pf.variable_name
    ),
    joined AS (
        SELECT
            reference_time
            , value_time
            , secondary_location_id
            , secondary_value
            , configuration
            , measurement_unit
            , variable_name
            , primary_value
            , primary_location_id
            , lead_time
            , absolute_difference
        FROM(
            SELECT *,
                row_number()
            OVER(
                PARTITION BY value_time,
                             primary_location_id,
                             configuration,
                             variable_name,
                             measurement_unit,
                             reference_time
                ORDER BY primary_reference_time desc
                ) AS rn
            FROM initial_joined
            )
        WHERE rn = 1
    )
    INSERT INTO joined_timeseries
    SELECT
        *
    FROM
        joined
    ORDER BY
        " ++ String.intercalate "," (jtq.order_by.map JoinedFilterFieldEnum.fieldName) ++ "
    ;"

/-! ### Denotation of the join and deduplication stages -/

/-- The `initial_joined` CTE's denotation: the three-way inner join of the
secondary store, the crosswalk and the primary store, with the derived
`lead_time` and `absolute_difference` columns. -/
def initial_joined (sf : List TimeseriesRow) (cf : List XwalkRow)
    (pf : List TimeseriesRow) : List IJRow :=
  sf.flatMap (fun s => cf.flatMap (fun c => pf.filterMap (fun p =>
    if c.secondary_location_id = s.location_id ∧
       c.primary_location_id = p.location_id ∧
       s.value_time = p.value_time ∧
       s.measurement_unit = p.measurement_unit ∧
       s.variable_name = p.variable_name
    then some
      { reference_time := s.reference_time
        value_time := s.value_time
        secondary_location_id := s.location_id
        secondary_value := s.value
        configuration := s.configuration
        measurement_unit := s.measurement_unit
        primary_reference_time := p.reference_time
        variable_name := s.variable_name
        primary_value := p.value
        primary_location_id := p.location_id
        lead_time := s.value_time - s.reference_time
        absolute_difference := |p.value - s.value| }
    else none)))

/-- The deduplication partition key of the `joined` CTE:
`PARTITION BY value_time, primary_location_id, configuration,
variable_name, measurement_unit, reference_time`. -/
def dedupKey (r : IJRow) : Int × String × String × String × String × Int :=
  (r.value_time, r.primary_location_id, r.configuration, r.variable_name,
   r.measurement_unit, r.reference_time)

/-- The row a partition keeps: the first row (in engine order) attaining the
maximal `primary_reference_time`, i.e. the row with `row_number() = 1`
under `ORDER BY primary_reference_time desc` with a stable tie-break. -/
def latestByPrimaryRefTime : List IJRow → Option IJRow
  | [] => none
  | r :: rs =>
    match latestByPrimaryRefTime rs with
    | none => some r
    | some m =>
      if r.primary_reference_time < m.primary_reference_time then some m
      else some r

/-- The `joined` CTE's denotation: one row per deduplication key — the
partition's row with the latest `primary_reference_time` (`rn = 1`). -/
def joinedDedup (rows : List IJRow) : List IJRow :=
  ((rows.map dedupKey).dedup).filterMap
    (fun k => latestByPrimaryRefTime (rows.filter (fun r => dedupKey r = k)))

/-! ## Metrics compilation (duckdb_database.py, `create_get_metrics_query`)

The `tqu.*` helpers live in teehr/queries/utils.py, which is absent from
the source tree; each helper below is modelled from the spec (§4.2 metric
registry, §4.3 pipeline): a select fragment is emitted exactly when its
metric id is among the expanded `include_metrics`, and each auxiliary
stage (ranking, annual grouping) is emitted at most once. -/

/-- The metrics a query requests, after expansion. -/
def MetricQuery.included (mq : MetricQuery) : List MetricEnum :=
  includedMetrics mq.include_metrics

/-- Modelled from the spec: one metric's select fragment — present exactly
when the metric is requested. -/
def selectFragment (mq : MetricQuery) (m : MetricEnum) (expr : String) : String :=
  if m ∈ mq.included then "," ++ expr ++ " AS " ++ m.id ++ "\n" else ""

/-- The group-by columns joined for SQL, qualified by a table alias. -/
def joinFields (alias_ : String) (fields : List JoinedFilterFieldEnum) : String :=
  String.intercalate "," (fields.map (fun f => alias_ ++ "." ++ f.fieldName))

/-- Modelled from the spec: `tqu._nse_cte` — the auxiliary CTE computing the
per-group primary mean, emitted once when a Nash–Sutcliffe metric is
requested. -/
def _nse_cte (mq : MetricQuery) : String :=
  if MetricEnum.nash_sutcliffe_efficiency ∈ mq.included ∨
     MetricEnum.nash_sutcliffe_efficiency_normalized ∈ mq.included then
    ", nse AS (SELECT " ++ joinFields "joined" mq.group_by ++
    ", avg(joined.primary_value) AS avg_primary_value FROM joined GROUP BY " ++
    joinFields "joined" mq.group_by ++ ")\n"
  else ""

/-- Modelled from the spec: `tqu._join_nse_cte` — joins the NSE CTE back by
the full group-by key set. -/
def _join_nse_cte (mq : MetricQuery) : String :=
  if MetricEnum.nash_sutcliffe_efficiency ∈ mq.included ∨
     MetricEnum.nash_sutcliffe_efficiency_normalized ∈ mq.included then
    "JOIN nse ON " ++
    String.intercalate " AND "
      (mq.group_by.map (fun f => "joined." ++ f.fieldName ++ " = nse." ++ f.fieldName)) ++ "\n"
  else ""

/-- Modelled from the spec: `tqu._spearman_ranks_cte` — the auxiliary CTE
ranking each side's values within each group, emitted once when the
Spearman correlation is requested. -/
def _spearman_ranks_cte (mq : MetricQuery) : String :=
  if MetricEnum.spearman_correlation ∈ mq.included then
    ", ranks AS (SELECT " ++ joinFields "joined" mq.group_by ++
    ", rank() OVER (PARTITION BY " ++ joinFields "joined" mq.group_by ++
    " ORDER BY joined.primary_value) AS primary_rank" ++
    ", rank() OVER (PARTITION BY " ++ joinFields "joined" mq.group_by ++
    " ORDER BY joined.secondary_value) AS secondary_rank FROM joined)\n"
  else ""

/-- Modelled from the spec: `tqu._join_spearman_ranks_cte`. -/
def _join_spearman_ranks_cte (mq : MetricQuery) : String :=
  if MetricEnum.spearman_correlation ∈ mq.included then
    "JOIN ranks ON " ++
    String.intercalate " AND "
      (mq.group_by.map (fun f => "joined." ++ f.fieldName ++ " = ranks." ++ f.fieldName)) ++ "\n"
  else ""

/-- Modelled from the spec: `tqu._annual_metrics_cte` — the auxiliary CTE
taking per-(year, group) peaks and averaging their relative bias, emitted
once when the annual-peak relative bias is requested. -/
def _annual_metrics_cte (mq : MetricQuery) : String :=
  if MetricEnum.annual_peak_relative_bias ∈ mq.included then
    ", annual AS (SELECT " ++ joinFields "joined" mq.group_by ++
    ", date_trunc('year', joined.value_time) AS year" ++
    ", max(joined.primary_value) AS max_primary, max(joined.secondary_value) AS max_secondary" ++
    " FROM joined GROUP BY " ++ joinFields "joined" mq.group_by ++ ", year)" ++
    ", annual_metrics AS (SELECT " ++
    String.intercalate "," (mq.group_by.map JoinedFilterFieldEnum.fieldName) ++
    ", avg((max_secondary - max_primary) / max_primary) AS annual_peak_relative_bias" ++
    " FROM annual GROUP BY " ++
    String.intercalate "," (mq.group_by.map JoinedFilterFieldEnum.fieldName) ++ ")\n"
  else ""

/-- Modelled from the spec: `tqu._join_annual_metrics_cte`. -/
def _join_annual_metrics_cte (mq : MetricQuery) : String :=
  if MetricEnum.annual_peak_relative_bias ∈ mq.included then
    "JOIN annual_metrics ON " ++
    String.intercalate " AND "
      (mq.group_by.map (fun f => "metrics." ++ f.fieldName ++ " = annual_metrics." ++ f.fieldName)) ++ "\n"
  else ""

/-- Modelled from the spec: `tqu.metrics_select_clause` — the final
projection of computed outputs, including the annual-CTE column when
requested. -/
def metrics_select_clause (mq : MetricQuery) : String :=
  (String.join ((mq.included.filter
      (fun m => m ≠ MetricEnum.annual_peak_relative_bias)).map
    (fun m => ",metrics." ++ m.id))) ++
  (if MetricEnum.annual_peak_relative_bias ∈ mq.included then
    ",annual_metrics.annual_peak_relative_bias" else "")

/-- Modelled from the spec: `tqu.geometry_select_clause` — the geometry
column, present exactly when `include_geometry` is set. -/
def geometry_select_clause (include_geometry : Bool) : String :=
  if include_geometry then ",gf.geometry" else ""

/-- Modelled from the spec: `tqu.metric_geometry_join_clause_db` — the left
join to the geometry source keyed on `primary_location_id`. -/
def metric_geometry_join_clause_db (include_geometry : Bool) : String :=
  if include_geometry then
    "LEFT JOIN geometry gf ON metrics.primary_location_id = gf.id\n"
  else ""

/-- `create_get_metrics_query` from duckdb_database.py: the skeleton is
transcribed from the source f-string; the `tqu.*` fragments are the
spec-modelled helpers above. -/
def create_get_metrics_query (mq : MetricQuery) : String :=
  "
        WITH joined as (
            SELECT
                *
            FROM joined_timeseries sf
            " ++ filters_to_sql mq.filters ++ "
        )
        " ++ _nse_cte mq ++ "
        " ++ _annual_metrics_cte mq ++ "
        " ++ _spearman_ranks_cte mq ++ "
        , metrics AS (
            SELECT
                " ++ joinFields "joined" mq.group_by ++ "
                " ++ selectFragment mq .primary_count "count(joined.primary_value)" ++ "
                " ++ selectFragment mq .secondary_count "count(joined.secondary_value)" ++ "
                " ++ selectFragment mq .primary_minimum "min(joined.primary_value)" ++ "
                " ++ selectFragment mq .secondary_minimum "min(joined.secondary_value)" ++ "
                " ++ selectFragment mq .primary_maximum "max(joined.primary_value)" ++ "
                " ++ selectFragment mq .secondary_maximum "max(joined.secondary_value)" ++ "
                " ++ selectFragment mq .primary_average "avg(joined.primary_value)" ++ "
                " ++ selectFragment mq .secondary_average "avg(joined.secondary_value)" ++ "
                " ++ selectFragment mq .primary_sum "sum(joined.primary_value)" ++ "
                " ++ selectFragment mq .secondary_sum "sum(joined.secondary_value)" ++ "
                " ++ selectFragment mq .primary_variance "var_pop(joined.primary_value)" ++ "
                " ++ selectFragment mq .secondary_variance "var_pop(joined.secondary_value)" ++ "
                " ++ selectFragment mq .max_value_delta
          "max(joined.secondary_value) - max(joined.primary_value)" ++ "
                " ++ selectFragment mq .mean_error
          "avg(joined.primary_value - joined.secondary_value)" ++ "
                " ++ selectFragment mq .nash_sutcliffe_efficiency
          "1 - (sum(pow(joined.primary_value - joined.secondary_value, 2)) / sum(pow(joined.primary_value - nse.avg_primary_value, 2)))" ++ "
                " ++ selectFragment mq .nash_sutcliffe_efficiency_normalized
          "1 / (2 - (1 - (sum(pow(joined.primary_value - joined.secondary_value, 2)) / sum(pow(joined.primary_value - nse.avg_primary_value, 2)))))" ++ "
                " ++ selectFragment mq .kling_gupta_efficiency
          "1 - sqrt(pow(corr(joined.secondary_value, joined.primary_value) - 1, 2) + pow(stddev_pop(joined.secondary_value) / stddev_pop(joined.primary_value) - 1, 2) + pow(avg(joined.secondary_value) / avg(joined.primary_value) - 1, 2))" ++ "
                " ++ selectFragment mq .kling_gupta_efficiency_mod1
          "1 - sqrt(pow(corr(joined.secondary_value, joined.primary_value) - 1, 2) + pow(stddev_pop(joined.secondary_value) / stddev_pop(joined.primary_value) - 1, 2) + pow((avg(joined.secondary_value) - avg(joined.primary_value)) / stddev_pop(joined.primary_value), 2))" ++ "
                " ++ selectFragment mq .kling_gupta_efficiency_mod2
          "1 - sqrt(pow(corr(joined.secondary_value, joined.primary_value) - 1, 2) + pow((stddev_pop(joined.secondary_value) / avg(joined.secondary_value)) / (stddev_pop(joined.primary_value) / avg(joined.primary_value)) - 1, 2) + pow(avg(joined.secondary_value) / avg(joined.primary_value) - 1, 2))" ++ "
                " ++ selectFragment mq .mean_absolute_error
          "avg(abs(joined.primary_value - joined.secondary_value))" ++ "
                " ++ selectFragment mq .mean_squared_error
          "avg(pow(joined.primary_value - joined.secondary_value, 2))" ++ "
                " ++ selectFragment mq .root_mean_squared_error
          "sqrt(avg(pow(joined.primary_value - joined.secondary_value, 2)))" ++ "
                " ++ selectFragment mq .primary_max_value_time
          "arg_max(joined.value_time, joined.primary_value)" ++ "
                " ++ selectFragment mq .secondary_max_value_time
          "arg_max(joined.value_time, joined.secondary_value)" ++ "
                " ++ selectFragment mq .max_value_timedelta
          "arg_max(joined.value_time, joined.secondary_value) - arg_max(joined.value_time, joined.primary_value)" ++ "
                " ++ selectFragment mq .relative_bias
          "sum(joined.secondary_value - joined.primary_value) / sum(joined.primary_value)" ++ "
                " ++ selectFragment mq .multiplicative_bias
          "avg(joined.secondary_value) / avg(joined.primary_value)" ++ "
                " ++ selectFragment mq .mean_absolute_relative_error
          "sum(abs(joined.primary_value - joined.secondary_value)) / sum(joined.primary_value)" ++ "
                " ++ selectFragment mq .pearson_correlation
          "corr(joined.secondary_value, joined.primary_value)" ++ "
                " ++ selectFragment mq .r_squared
          "pow(corr(joined.secondary_value, joined.primary_value), 2)" ++ "
                " ++ selectFragment mq .spearman_correlation
          "corr(ranks.primary_rank, ranks.secondary_rank)" ++ "
            FROM
                joined
                " ++ _join_nse_cte mq ++ "
                " ++ _join_spearman_ranks_cte mq ++ "
            GROUP BY
                " ++ joinFields "joined" mq.group_by ++ "
        )
        SELECT
            " ++ joinFields "metrics" mq.group_by ++ "
            " ++ metrics_select_clause mq ++ "
            " ++ geometry_select_clause mq.include_geometry ++ "
        FROM metrics
            " ++ metric_geometry_join_clause_db mq.include_geometry ++ "
            " ++ _join_annual_metrics_cte mq ++ "
        ORDER BY
            " ++ joinFields "metrics" mq.order_by ++ "
    ;"

/-- The state an impure compiler could read or write: the embedding makes it
explicit so that statelessness is a provable statement rather than an
assumption. -/
structure CompilerState where
  log : List String
deriving DecidableEq, Repr

/-- `create_get_metrics_query` threaded through the explicit state: the
source reads only the request and writes nothing, so the embedded
computation consumes the request by value and passes the state through. -/
def create_get_metrics_query_st (mq : MetricQuery) (s : CompilerState) :
    String × CompilerState :=
  (create_get_metrics_query mq, s)

/-! ## Single-timeseries retrieval (duckdb_database.py,
`create_get_timeseries_query`) -/

/-- The database-backed `TimeseriesQuery`.  Modelled from the spec: the
model class lives in teehr/models/queries_database.py, absent from the
source tree; per the source's use it carries the series name
(`"primary"` or `"secondary"`), an order-by list, and filters over the
joined store. -/
structure TimeseriesQueryDB where
  timeseries_name : String
  order_by : List String
  filters : List JoinedFilter
  return_query : Bool
deriving DecidableEq, Repr

/-- `create_get_timeseries_query` from duckdb_database.py, transcribed from
the source f-strings: the primary branch groups and re-labels the
configuration, the secondary branch is a plain projection. -/
def create_get_timeseries_query (tq : TimeseriesQueryDB) : String :=
  if tq.timeseries_name = "primary" then
    "
            SELECT
                ANY_VALUE(reference_time) AS reference_time,
                ANY_VALUE(primary_value) AS value,
                value_time,
                primary_location_id AS location_id,
                'primary' as configuration,
                measurement_unit,
                variable_name,
            FROM
                joined_timeseries sf
            " ++ filters_to_sql tq.filters ++ "
            GROUP BY
                value_time,
                primary_location_id,
                --configuration,
                measurement_unit,
                variable_name,
            ORDER BY
                " ++ String.intercalate "," tq.order_by ++ "
        ;"
  else
    "
            SELECT
                reference_time,
                value_time,
                secondary_location_id AS location_id,
                secondary_value AS value,
                configuration,
                measurement_unit,
                variable_name,
            FROM
                joined_timeseries sf
            " ++ filters_to_sql tq.filters ++ "
            ORDER BY
                " ++ String.intercalate "," tq.order_by ++ "
        ;"

/-- An output row of the single-timeseries retrieval. -/
structure TSOut where
  reference_time : Int
  value : Int
  value_time : Int
  location_id : String
  configuration : String
  measurement_unit : String
  variable_name : String
deriving DecidableEq, Repr

/-- The grouping key of the primary branch:
`GROUP BY value_time, primary_location_id, measurement_unit,
variable_name` (`configuration` is commented out in the source). -/
def tsKey (r : JTRow) : Int × String × String × String :=
  (r.value_time, r.primary_location_id, r.measurement_unit, r.variable_name)

/-- The denotation of the primary branch of
`create_get_timeseries_query`: after the filters, rows sharing `tsKey`
collapse to one output row; `ANY_VALUE` is embedded as the value of the
group's first row in engine order, and the configuration is the literal
`'primary'`.  The final `ORDER BY` permutes rows only and is not
modelled. -/
def primaryTimeseriesRows (filters : List JoinedFilter) (rows : List JTRow) :
    List TSOut :=
  let fr := applyFilters filters rows
  ((fr.map tsKey).dedup).filterMap (fun k =>
    match fr.filter (fun r => tsKey r = k) with
    | [] => none
    | g :: _ => some
      { reference_time := g.reference_time
        value := g.primary_value
        value_time := g.value_time
        location_id := g.primary_location_id
        configuration := "primary"
        measurement_unit := g.measurement_unit
        variable_name := g.variable_name })

/-- The denotation of the secondary branch: a plain projection of every
filtered row, configuration taken from the store unchanged. -/
def secondaryTimeseriesRows (filters : List JoinedFilter) (rows : List JTRow) :
    List TSOut :=
  (applyFilters filters rows).map (fun r =>
    { reference_time := r.reference_time
      value := r.secondary_value
      value_time := r.value_time
      location_id := r.secondary_location_id
      configuration := r.configuration
      measurement_unit := r.measurement_unit
      variable_name := r.variable_name })

/-- The grouping key of an output row, for stating the collapse. -/
def tsOutKey (o : TSOut) : Int × String × String × String :=
  (o.value_time, o.location_id, o.measurement_unit, o.variable_name)

/-! ## Unique-value lookup (duckdb_database.py,
`create_unique_field_values_query`) -/

/-- `create_unique_field_values_query` from duckdb_database.py, transcribed
from the source f-string. -/
def create_unique_field_values_query (fn : JoinedTimeseriesFieldName) : String :=
  "
        SELECT
        DISTINCT
            " ++ fn.field_name ++ "
        AS unique_" ++ fn.field_name ++ "_values,
        FROM
            joined_timeseries
        ORDER BY
            " ++ fn.field_name ++ "
        "

/-- The ascending cell order used by `ORDER BY`, as a relation. -/
def fvLe (a b : FieldVal) : Prop := FieldVal.leB a b = true

instance : DecidableRel fvLe := fun a b => by
  unfold fvLe; infer_instance

/-- The denotation of the unique-value query: `SELECT DISTINCT` keeps one
copy of each value of the field, `ORDER BY` sorts ascending. -/
def evalUniqueFieldValues (fn : JoinedTimeseriesFieldName)
    (rows : List JTRow) : List FieldVal :=
  List.insertionSort fvLe ((rows.map (fun r => r.get fn)).dedup)

/-! ## Descriptive-statistics reporter (duckdb_database.py,
`describe_timeseries`) -/

/-- The "Number of duplicate rows" figure of `describe_timeseries`: the
duplicate query groups by all seven columns — i.e. by the whole row —
keeps the groups with `COUNT(*) > 1`, and the reporter takes the number
of resulting group rows (`df.index.size`). -/
def num_duplicate_rows (rows : List TimeseriesRow) : Nat :=
  (rows.dedup.filter (fun r => 1 < rows.count r)).length

/-- The count the claim describes, written from the spec's words: the number
of rows all of whose columns are identical to those of another row
(every member of a duplicated group counts). -/
def exactDuplicateRowCount (rows : List TimeseriesRow) : Nat :=
  (rows.filter (fun r => 1 < rows.count r)).length

/-! ## Helper lemmas -/

/-- Whether an `Except` computation succeeded. -/
def exceptOk : Except String α → Bool
  | .ok _ => true
  | .error _ => false

theorem exceptOk_map (f : α → β) (e : Except String α) :
    exceptOk (e.map f) = exceptOk e := by
  cases e <;> rfl

theorem parseMetricList_ok_mem {l : List String} {res : List MetricEnum}
    (h : parseMetricList l = .ok res) :
    ∀ s ∈ l, ∃ m, MetricEnum.fromString s = some m := by
  induction l generalizing res with
  | nil => intro s hs; cases hs
  | cons a rest ih =>
    intro s hs
    rw [parseMetricList] at h
    cases hfv : MetricEnum.fromString a with
    | none => rw [hfv] at h; cases h
    | some m =>
      rw [hfv] at h
      cases hrest : parseMetricList rest with
      | error e => rw [hrest] at h; cases h
      | ok l' =>
        cases hs with
        | head => exact ⟨m, hfv⟩
        | tail _ hmem => exact ih hrest s hmem

theorem parseJoinedFieldList_ok_mem {l : List String}
    {res : List JoinedFilterFieldEnum}
    (h : parseJoinedFieldList l = .ok res) :
    ∀ s ∈ l, ∃ f, JoinedFilterFieldEnum.fromString s = some f := by
  induction l generalizing res with
  | nil => intro s hs; cases hs
  | cons a rest ih =>
    intro s hs
    rw [parseJoinedFieldList] at h
    cases hfv : JoinedFilterFieldEnum.fromString a with
    | none => rw [hfv] at h; cases h
    | some f =>
      rw [hfv] at h
      cases hrest : parseJoinedFieldList rest with
      | error e => rw [hrest] at h; cases h
      | ok l' =>
        cases hs with
        | head => exact ⟨f, hfv⟩
        | tail _ hmem => exact ih hrest s hmem

/-- A `filterMap` over distinct keys whose generator returns, for each key,
an element carrying that key, reproduces the key list. -/
theorem filterMap_map_key {κ β : Type} (key : β → κ) :
    ∀ (ks : List κ) (g : κ → Option β),
      (∀ k ∈ ks, ∃ b, g k = some b ∧ key b = k) →
      (ks.filterMap g).map key = ks := by
  intro ks
  induction ks with
  | nil => intro g _; rfl
  | cons k rest ih =>
    intro g h
    obtain ⟨b, hg, hk⟩ := h k (List.mem_cons_self k rest)
    rw [List.filterMap_cons, hg, List.map_cons, hk,
      ih g (fun k' hk' => h k' (List.mem_cons_of_mem _ hk'))]

/-! ## Claim theorems -/

/-- C2: constructing a `JoinedFilter` or `TimeseriesFilter` succeeds exactly
when the operator is `in` and the value is a non-string iterable, or the
operator is not `in` and the value is a scalar; the mismatch is rejected
by the field validator at construction time. -/
theorem filter_in_operator_validation
    (colJ : JoinedFilterFieldEnum) (colT : TimeseriesFilterFieldEnum)
    (op : FilterOperatorEnum) (v : FilterValue) :
    (exceptOk (JoinedFilter.mk? colJ op v) = true ↔
      (op = .isin ↔ v.is_iterable_not_str = true)) ∧
    (exceptOk (TimeseriesFilter.mk? colT op v) = true ↔
      (op = .isin ↔ v.is_iterable_not_str = true)) := by
  constructor
  · rw [JoinedFilter.mk?, exceptOk_map]
    cases v <;> cases op <;>
      simp [JoinedFilter.in_operator_must_have_iterable,
        FilterValue.is_iterable_not_str, exceptOk]
  · rw [TimeseriesFilter.mk?, exceptOk_map]
    cases v <;> cases op <;>
      simp [TimeseriesFilter.in_operator_must_have_iterable,
        FilterValue.is_iterable_not_str, exceptOk]

/-- C3: with `include_geometry = true`, validation fails when
`primary_location_id` is not grouped by or no geometry source is given;
with `geometry` grouped by it fails when `include_geometry = false`; and
the well-formed combination passes. -/
theorem metric_query_geometry_validation
    (gb : List JoinedFilterFieldEnum) (gfp : Option String) :
    (JoinedFilterFieldEnum.primary_location_id ∉ gb →
      exceptOk (include_geometry_must_group_by_primary_location_id true gb gfp)
        = false) ∧
    (pathFalsy gfp = true →
      exceptOk (include_geometry_must_group_by_primary_location_id true gb gfp)
        = false) ∧
    (JoinedFilterFieldEnum.geometry ∈ gb →
      exceptOk (include_geometry_must_group_by_primary_location_id false gb gfp)
        = false) ∧
    (JoinedFilterFieldEnum.primary_location_id ∈ gb → pathFalsy gfp = false →
      include_geometry_must_group_by_primary_location_id true gb gfp
        = .ok true) := by
  refine ⟨fun h => ?_, fun h => ?_, fun h => ?_, fun h1 h2 => ?_⟩ <;>
  · simp only [include_geometry_must_group_by_primary_location_id]
    split_ifs <;> simp_all [exceptOk]

/-- C3 witness: the validator at concrete inputs — a missing
`primary_location_id` fails, the well-formed combination passes. -/
theorem metric_query_geometry_validation_witness :
    exceptOk (include_geometry_must_group_by_primary_location_id true []
      (some "geo.parquet")) = false ∧
    include_geometry_must_group_by_primary_location_id true
      [JoinedFilterFieldEnum.primary_location_id] (some "geo.parquet")
      = .ok true :=
  ⟨(metric_query_geometry_validation [] (some "geo.parquet")).1 (by decide),
   (metric_query_geometry_validation [JoinedFilterFieldEnum.primary_location_id]
      (some "geo.parquet")).2.2.2 (by decide) (by decide)⟩

/-- C4: `include_metrics = "all"` is admitted by the union's string arm and
expands to the full registry, which contains every metric id; a list
containing an unregistered id fails validation. -/
theorem include_metrics_all_and_unknown
    (l : List String) (s : String) :
    (parseIncludeMetrics (.str "all") = .ok (.plainStr "all")) ∧
    (includedMetrics (.plainStr "all") = MetricEnum.registry) ∧
    (∀ m : MetricEnum, m ∈ MetricEnum.registry) ∧
    (s ∈ l → MetricEnum.fromString s = none →
      exceptOk (parseIncludeMetrics (.list l)) = false) := by
  refine ⟨rfl, rfl, fun m => by cases m <;> decide, fun hmem hbad => ?_⟩
  rw [parseIncludeMetrics, exceptOk_map]
  cases h : parseMetricList l with
  | error e => rfl
  | ok res =>
    obtain ⟨m, hm⟩ := parseMetricList_ok_mem h s hmem
    rw [hbad] at hm
    cases hm

/-- C4 witness: a list containing the unregistered id `"bogus"` is rejected. -/
theorem include_metrics_all_and_unknown_witness :
    exceptOk (parseIncludeMetrics (.list ["mean_error", "bogus"])) = false :=
  (include_metrics_all_and_unknown ["mean_error", "bogus"] "bogus").2.2.2
    (by decide) (by decide)

/-- C5: the compiled `WHERE` clause conjoins the filters with `AND` in list
order; an empty filter list compiles to the no-restriction comment and
its denotation selects every row of the relation. -/
theorem filters_conjoined_and_empty_unrestricted
    (f : JoinedFilter) (fs : List JoinedFilter) (rows : List JTRow) (r : JTRow) :
    (filters_to_sql [] = "--no where clause") ∧
    (applyFilters [] rows = rows) ∧
    (filters_to_sql (f :: fs) =
      "WHERE " ++ String.intercalate " AND " ((f :: fs).map filterToSql)) ∧
    (evalJoinedFilters (f :: fs) r
      = (evalJoinedFilter f r && evalJoinedFilters fs r)) := by
  refine ⟨rfl, ?_, by simp [filters_to_sql], by simp [evalJoinedFilters]⟩
  simp [applyFilters, evalJoinedFilters]

/-- C6: a `group_by` or `order_by` name outside the joined-field vocabulary
fails validation, so the build-then-compile pipeline never produces any
query text. -/
theorem unknown_field_fails_before_any_text
    (raw : RawMetricQuery) (s : String)
    (hmem : s ∈ raw.group_by ∨ s ∈ raw.order_by)
    (hbad : JoinedFilterFieldEnum.fromString s = none) :
    ∀ t : String, (MetricQuery.mk? raw).map create_get_metrics_query ≠ .ok t := by
  intro t hok
  have hok' : exceptOk ((MetricQuery.mk? raw).map create_get_metrics_query)
      = true := by rw [hok]; rfl
  rw [exceptOk_map, MetricQuery.mk?] at hok'
  cases hgb : parseJoinedFieldList raw.group_by with
  | error e => rw [hgb] at hok'; simp [bind, Except.bind, exceptOk] at hok'
  | ok gb =>
    cases hmem with
    | inl hgmem =>
      obtain ⟨fld, hf⟩ := parseJoinedFieldList_ok_mem hgb s hgmem
      rw [hbad] at hf; cases hf
    | inr homem =>
      rw [hgb] at hok'
      cases hob : parseJoinedFieldList raw.order_by with
      | error e => rw [hob] at hok'; simp [bind, Except.bind, exceptOk] at hok'
      | ok ob =>
        obtain ⟨fld, hf⟩ := parseJoinedFieldList_ok_mem hob s homem
        rw [hbad] at hf; cases hf

/-- C6 witness: a request whose `order_by` holds `"bogus_field"` yields no
query text. -/
theorem unknown_field_fails_before_any_text_witness :
    (MetricQuery.mk?
      { primary_filepath := "p.parquet", secondary_filepath := "s.parquet",
        crosswalk_filepath := "x.parquet",
        group_by := ["primary_location_id"], order_by := ["bogus_field"],
        include_metrics := .str "all", filters := [], return_query := true,
        geometry_filepath := none, include_geometry := false,
        remove_duplicates := true }).map create_get_metrics_query
      ≠ .ok "" :=
  unknown_field_fails_before_any_text _ "bogus_field" (Or.inr (by decide))
    (by decide) ""

/-- C7: compilation threaded through the explicit state leaves the state
untouched, its text depends only on the request (not on the incoming
state, nor on a previous compilation's state), and it equals the pure
compile function — so identical requests compile to identical text under
any interleaving. -/
theorem compile_is_pure_and_deterministic
    (mq mq2 : MetricQuery) (s s' : CompilerState) :
    ((create_get_metrics_query_st mq s).2 = s) ∧
    ((create_get_metrics_query_st mq s).1 = (create_get_metrics_query_st mq s').1) ∧
    ((create_get_metrics_query_st mq
        ((create_get_metrics_query_st mq2 s).2)).1
      = (create_get_metrics_query_st mq s).1) ∧
    ((create_get_metrics_query_st mq s).1 = create_get_metrics_query mq) :=
  ⟨rfl, rfl, rfl, rfl⟩

instance : IsTotal FieldVal fvLe := by
  constructor
  intro a b
  cases a <;> cases b <;>
    simp [fvLe, FieldVal.leB, FieldVal.rank] <;> exact le_total _ _

instance : IsTrans FieldVal fvLe := by
  constructor
  intro a b c hab hbc
  cases a <;> cases b <;> cases c <;>
    simp_all [fvLe, FieldVal.leB, FieldVal.rank] <;> exact le_trans hab hbc

/-- C8: the unique-value query's denotation is sorted ascending, has no
duplicate values, and holds exactly the values the field takes over the
joined store. -/
theorem unique_field_values_sorted_distinct
    (fn : JoinedTimeseriesFieldName) (rows : List JTRow) :
    List.Sorted fvLe (evalUniqueFieldValues fn rows) ∧
    (evalUniqueFieldValues fn rows).Nodup ∧
    ∀ v : FieldVal,
      v ∈ evalUniqueFieldValues fn rows ↔ v ∈ rows.map (fun r => r.get fn) := by
  refine ⟨List.sorted_insertionSort fvLe _, ?_, fun v => ?_⟩
  · exact ((List.perm_insertionSort fvLe _).nodup_iff).2 (List.nodup_dedup _)
  · rw [evalUniqueFieldValues, List.mem_insertionSort, List.mem_dedup]

/-- A concrete store row for the duplicate-count counterexample. -/
def dupRow : TimeseriesRow :=
  { reference_time := 0, value_time := 0, location_id := "gage-A", value := 1,
    configuration := "obs", measurement_unit := "cfs",
    variable_name := "streamflow" }

/-- C9 counterexample: in a store of two identical rows, both rows are exact
duplicates of another row (the claim's count is 2), but the reporter's
figure — the number of over-populated groups — is 1. -/
theorem duplicate_rows_count_counterexample :
    num_duplicate_rows [dupRow, dupRow] = 1 ∧
    exactDuplicateRowCount [dupRow, dupRow] = 2 ∧
    num_duplicate_rows [dupRow, dupRow]
      ≠ exactDuplicateRowCount [dupRow, dupRow] := by
  refine ⟨by decide, by decide, by decide⟩

/-- C9 amended: the reporter's "Number of duplicate rows" equals the number
of distinct full-row value combinations occurring more than once. -/
theorem duplicate_rows_counts_duplicated_groups (rows : List TimeseriesRow) :
    num_duplicate_rows rows
      = (rows.toFinset.filter (fun r => 1 < rows.count r)).card := by
  have hnd : (rows.dedup.filter (fun r => 1 < rows.count r)).Nodup :=
    (List.nodup_dedup rows).filter _
  rw [num_duplicate_rows, ← hnd.dedup, ← List.card_toFinset]
  congr 1
  ext a
  simp [List.mem_toFinset, List.mem_filter, List.mem_dedup, Finset.mem_filter]

/-- C10: the primary branch collapses the filtered store to one output row
per `(value_time, primary_location_id, measurement_unit, variable_name)`
key and labels every output configuration with the literal `'primary'`;
the secondary branch keeps every filtered row and its stored
configuration. -/
theorem timeseries_primary_collapses_secondary_plain
    (filters : List JoinedFilter) (rows : List JTRow) :
    ((primaryTimeseriesRows filters rows).map tsOutKey
      = ((applyFilters filters rows).map tsKey).dedup) ∧
    (∀ o ∈ primaryTimeseriesRows filters rows, o.configuration = "primary") ∧
    ((secondaryTimeseriesRows filters rows).map TSOut.configuration
      = (applyFilters filters rows).map JTRow.configuration) ∧
    ((secondaryTimeseriesRows filters rows).length
      = (applyFilters filters rows).length) := by
  refine ⟨?_, ?_, ?_, ?_⟩
  · show ((((applyFilters filters rows).map tsKey).dedup).filterMap _).map tsOutKey = _
    apply filterMap_map_key tsOutKey
    intro k hk
    obtain ⟨r, hrmem, hrk⟩ := List.mem_map.1 (List.mem_dedup.1 hk)
    have hrfil : r ∈ (applyFilters filters rows).filter (fun x => tsKey x = k) :=
      List.mem_filter.2 ⟨hrmem, by simp [hrk]⟩
    cases hl : (applyFilters filters rows).filter (fun x => tsKey x = k) with
    | nil => rw [hl] at hrfil; cases hrfil
    | cons g rest =>
      have hgmem : g ∈ (applyFilters filters rows).filter (fun x => tsKey x = k) := by
        rw [hl]; exact List.mem_cons_self g rest
      have hgk : tsKey g = k := by
        have := (List.mem_filter.1 hgmem).2
        simpa using this
      refine ⟨_, rfl, ?_⟩
      simpa [tsOutKey, tsKey] using hgk
  · intro o ho
    simp only [primaryTimeseriesRows] at ho
    obtain ⟨k, _, hg⟩ := List.mem_filterMap.1 ho
    cases hl : (applyFilters filters rows).filter (fun x => tsKey x = k) with
    | nil => rw [hl] at hg; cases hg
    | cons g rest =>
      rw [hl] at hg
      have := Option.some.inj hg
      rw [← this]
  · rw [secondaryTimeseriesRows, List.map_map]
    rfl
  · rw [secondaryTimeseriesRows, List.length_map]

/-- A concrete joined-store row for the C10 witness. -/
def exJT : JTRow :=
  { reference_time := 0, value_time := 10, secondary_location_id := "fcast-A",
    secondary_value := 6, configuration := "fc", measurement_unit := "cfs",
    variable_name := "streamflow", primary_value := 5,
    primary_location_id := "gage-A", lead_time := 10,
    absolute_difference := 1 }

/-- The output row the primary branch produces for `exJT`. -/
def exTSOut : TSOut :=
  { reference_time := 0, value := 5, value_time := 10,
    location_id := "gage-A", configuration := "primary",
    measurement_unit := "cfs", variable_name := "streamflow" }

/-- C10 witness: the primary branch at a one-row store produces a row whose
configuration is the literal `'primary'`. -/
theorem timeseries_primary_collapses_secondary_plain_witness :
    exTSOut.configuration = "primary" :=
  (timeseries_primary_collapses_secondary_plain [] [exJT]).2.1 exTSOut (by decide)

theorem latest_mem : ∀ {l : List IJRow} {r : IJRow},
    latestByPrimaryRefTime l = some r → r ∈ l := by
  intro l
  induction l with
  | nil => intro r h; cases h
  | cons a rest ih =>
    intro r h
    rw [latestByPrimaryRefTime] at h
    cases hm : latestByPrimaryRefTime rest with
    | none =>
      rw [hm] at h
      exact (Option.some.inj h) ▸ List.mem_cons_self a rest
    | some m =>
      rw [hm] at h
      have h' : (if a.primary_reference_time < m.primary_reference_time
          then some m else some a) = some r := h
      by_cases hlt : a.primary_reference_time < m.primary_reference_time
      · rw [if_pos hlt] at h'
        exact List.mem_cons_of_mem a ((Option.some.inj h') ▸ ih hm)
      · rw [if_neg hlt] at h'
        exact (Option.some.inj h') ▸ List.mem_cons_self a rest

theorem latest_some_of_ne_nil : ∀ {l : List IJRow}, l ≠ [] →
    ∃ r, latestByPrimaryRefTime l = some r := by
  intro l h
  cases l with
  | nil => exact absurd rfl h
  | cons a rest =>
    rw [latestByPrimaryRefTime]
    cases latestByPrimaryRefTime rest with
    | none => exact ⟨a, rfl⟩
    | some m =>
      by_cases hlt : a.primary_reference_time < m.primary_reference_time
      · refine ⟨m, ?_⟩
        show (if a.primary_reference_time < m.primary_reference_time
          then some m else some a) = some m
        rw [if_pos hlt]
      · refine ⟨a, ?_⟩
        show (if a.primary_reference_time < m.primary_reference_time
          then some m else some a) = some a
        rw [if_neg hlt]

theorem latest_isMax : ∀ {l : List IJRow} {r : IJRow},
    latestByPrimaryRefTime l = some r →
    ∀ x ∈ l, x.primary_reference_time ≤ r.primary_reference_time := by
  intro l
  induction l with
  | nil => intro r h; cases h
  | cons a rest ih =>
    intro r h x hx
    rw [latestByPrimaryRefTime] at h
    cases hm : latestByPrimaryRefTime rest with
    | none =>
      rw [hm] at h
      have hra : r = a := (Option.some.inj h).symm
      cases hx with
      | head => exact hra ▸ le_refl _
      | tail _ hxr =>
        obtain ⟨r', hr'⟩ := latest_some_of_ne_nil (List.ne_nil_of_mem hxr)
        rw [hr'] at hm
        cases hm
    | some m =>
      rw [hm] at h
      have h' : (if a.primary_reference_time < m.primary_reference_time
          then some m else some a) = some r := h
      by_cases hlt : a.primary_reference_time < m.primary_reference_time
      · rw [if_pos hlt] at h'
        have hrm : r = m := (Option.some.inj h').symm
        cases hx with
        | head => exact hrm ▸ le_of_lt hlt
        | tail _ hxr => exact hrm ▸ ih hm x hxr
      · rw [if_neg hlt] at h'
        have hra : r = a := (Option.some.inj h').symm
        cases hx with
        | head => exact hra ▸ le_refl _
        | tail _ hxr =>
          exact hra ▸ le_trans (ih hm x hxr) (not_lt.1 hlt)

/-- The deduplication stage, over any joined row set: keys are preserved
without duplication, and each kept row comes from its partition with the
maximal `primary_reference_time`. -/
theorem joinedDedup_spec (rows : List IJRow) :
    (((joinedDedup rows).map dedupKey).Nodup) ∧
    (∀ k, k ∈ (joinedDedup rows).map dedupKey ↔ k ∈ rows.map dedupKey) ∧
    (∀ r ∈ joinedDedup rows,
      r ∈ rows ∧
      ∀ r' ∈ rows, dedupKey r' = dedupKey r →
        r'.primary_reference_time ≤ r.primary_reference_time) := by
  have hkeys : ((joinedDedup rows).map dedupKey) = (rows.map dedupKey).dedup := by
    apply filterMap_map_key dedupKey
    intro k hk
    obtain ⟨r, hrmem, hrk⟩ := List.mem_map.1 (List.mem_dedup.1 hk)
    have hrfil : r ∈ rows.filter (fun x => dedupKey x = k) :=
      List.mem_filter.2 ⟨hrmem, by simp [hrk]⟩
    obtain ⟨b, hb⟩ := latest_some_of_ne_nil (List.ne_nil_of_mem hrfil)
    have hbfil : b ∈ rows.filter (fun x => dedupKey x = k) := latest_mem hb
    exact ⟨b, hb, by simpa using (List.mem_filter.1 hbfil).2⟩
  refine ⟨hkeys ▸ List.nodup_dedup _, fun k => by rw [hkeys, List.mem_dedup], ?_⟩
  intro r hr
  obtain ⟨k, hkmem, hg⟩ := List.mem_filterMap.1 hr
  have hrfil : r ∈ rows.filter (fun x => dedupKey x = k) := latest_mem hg
  have hrk : dedupKey r = k := by simpa using (List.mem_filter.1 hrfil).2
  refine ⟨(List.mem_filter.1 hrfil).1, fun r' hr' hkk => ?_⟩
  have hr'fil : r' ∈ rows.filter (fun x => dedupKey x = k) :=
    List.mem_filter.2 ⟨hr', by simp [hkk, hrk]⟩
  exact latest_isMax hg r' hr'fil

/-- C1: over the compiled join, the deduplication stage keeps exactly one
row per `(value_time, primary_location_id, configuration, variable_name,
measurement_unit, reference_time)` key — a joined row whose
`primary_reference_time` is maximal within the key's partition — and
excludes every other row of the partition. -/
theorem join_dedup_keeps_latest_primary_reference_time
    (sf : List TimeseriesRow) (cf : List XwalkRow) (pf : List TimeseriesRow) :
    (((joinedDedup (initial_joined sf cf pf)).map dedupKey).Nodup) ∧
    (∀ k, k ∈ (joinedDedup (initial_joined sf cf pf)).map dedupKey ↔
          k ∈ (initial_joined sf cf pf).map dedupKey) ∧
    (∀ r ∈ joinedDedup (initial_joined sf cf pf),
      r ∈ initial_joined sf cf pf ∧
      ∀ r' ∈ initial_joined sf cf pf, dedupKey r' = dedupKey r →
        r'.primary_reference_time ≤ r.primary_reference_time) :=
  joinedDedup_spec (initial_joined sf cf pf)

/-- The concrete secondary store for the C1 witness: one forecast value. -/
def exSf : List TimeseriesRow :=
  [{ reference_time := 0, value_time := 10, location_id := "fcast-A",
     value := 6, configuration := "fc", measurement_unit := "cfs",
     variable_name := "streamflow" }]

/-- The concrete crosswalk for the C1 witness. -/
def exCf : List XwalkRow :=
  [{ primary_location_id := "gage-A", secondary_location_id := "fcast-A" }]

/-- The concrete primary store for the C1 witness: two observations of the
same `value_time` with different reference times. -/
def exPf : List TimeseriesRow :=
  [{ reference_time := 1, value_time := 10, location_id := "gage-A",
     value := 5, configuration := "obs", measurement_unit := "cfs",
     variable_name := "streamflow" },
   { reference_time := 2, value_time := 10, location_id := "gage-A",
     value := 7, configuration := "obs", measurement_unit := "cfs",
     variable_name := "streamflow" }]

/-- The joined row the dedup stage keeps for the witness stores: the one
with `primary_reference_time = 2`. -/
def exKept : IJRow :=
  { reference_time := 0, value_time := 10, secondary_location_id := "fcast-A",
    secondary_value := 6, configuration := "fc", measurement_unit := "cfs",
    primary_reference_time := 2, variable_name := "streamflow",
    primary_value := 7, primary_location_id := "gage-A", lead_time := 10,
    absolute_difference := 1 }

/-- The joined row the dedup stage drops for the witness stores: the one
with `primary_reference_time = 1`. -/
def exDropped : IJRow :=
  { reference_time := 0, value_time := 10, secondary_location_id := "fcast-A",
    secondary_value := 6, configuration := "fc", measurement_unit := "cfs",
    primary_reference_time := 1, variable_name := "streamflow",
    primary_value := 5, primary_location_id := "gage-A", lead_time := 10,
    absolute_difference := 1 }

/-- C1 witness: at the concrete stores, the kept row is a joined row and
dominates the dropped row of its partition. -/
theorem join_dedup_keeps_latest_primary_reference_time_witness :
    exKept ∈ initial_joined exSf exCf exPf ∧
    exDropped.primary_reference_time ≤ exKept.primary_reference_time :=
  ⟨((join_dedup_keeps_latest_primary_reference_time exSf exCf exPf).2.2
      exKept (by decide)).1,
   ((join_dedup_keeps_latest_primary_reference_time exSf exCf exPf).2.2
      exKept (by decide)).2 exDropped (by decide) (by decide)⟩

end Teehr
